import Mathlib

/-!
Shallow embedding of the `fit-connect-rs` command-line tool.

The program is a sequential CLI: it reads configuration from environment
variables, acquires an OAuth token (refresh when the config file exists,
fresh authorization otherwise), performs one Withings measurement fetch
and/or Strava API calls, prints the result, and exits.

The embedding makes all effects explicit:
* the `World` structure carries the environment, file-system facts, the
  current time, and one oracle per external-library call (HTTP / OAuth
  results are inputs, since the libraries are outside this repository);
* every modelled function returns its result paired with a `List Event`
  trace recording, in order, the external calls it performed and the
  text it wrote to stdout/stderr;
* process termination is the `Outcome` type: normal return, `exit(code)`,
  or a Rust panic (from `unwrap`/`expect`/`unreachable!`).  The Rust
  runtime prints a panic message to stderr and exits with a non-zero
  status; the model records a `stderr` event at each panic site.
-/

/-- Events observable during a run: external API calls and console output.
`callUpdateAthleteWeight` marks an invocation of the repository function
`update_athlete_weight` (as opposed to `weightUpdate`, the actual HTTP
call to the Strava weight-update endpoint inside it). -/
inductive Event where
  | withingsRefreshToken
  | withingsGetAccessCode
  | stravaGetAuthorization
  | stravaGetRefreshToken
  | measureFetch
  | athleteFetch
  | statsFetch
  | weightUpdate (weight : String)
  | callUpdateAthleteWeight (weight : String)
  | stdout (s : String)
  | stderr (s : String)
  deriving DecidableEq, BEq, Repr

/-- Termination behaviour of a code fragment: normal value, `exit(code)`,
or a Rust panic carrying its message. -/
inductive Outcome (α : Type) where
  | ok (a : α)
  | exited (code : Nat)
  | panicked (msg : String)
  deriving DecidableEq, Repr

/-- `WithingsError` from src/modules/withings.rs (only `Config` exists). -/
inductive WithingsError where
  | Config (message help : String)
  deriving DecidableEq, Repr

/-- `WeightError` from src/modules/withings.rs. -/
inductive WeightError where
  | Auth (s : String)
  | Measurement (s : String)
  | NoMeasurements
  deriving DecidableEq, Repr

/-- `StravaError` from src/modules/strava.rs.  The boxed source error of
`Authentication` is modelled by its rendered string. -/
inductive StravaError where
  | Authentication (source : String) (help : Option String)
  | Config (message help : String)
  | Api (message : String) (src : Option String)
  deriving DecidableEq, Repr

/-- A `miette::Report`: an underlying error plus the stack of `wrap_err`
context strings (outermost first). -/
structure Report (ε : Type) where
  contexts : List String
  error : ε
  deriving DecidableEq, Repr

/-- `wrap_err`: push one more context onto a report. -/
def Report.wrapErr {ε : Type} (r : Report ε) (c : String) : Report ε :=
  ⟨c :: r.contexts, r.error⟩

/-- `into_diagnostic`: turn a bare error into a report. -/
def Report.ofError {ε : Type} (e : ε) : Report ε := ⟨[], e⟩

/-- Display of a miette report: the outermost context if any, otherwise
the error's own display string. -/
def Report.render {ε : Type} (display : ε → String) (r : Report ε) : String :=
  match r.contexts with
  | c :: _ => c
  | [] => display r.error

/-- Display string of a `WithingsError` (the `thiserror` format). -/
def WithingsError.display : WithingsError → String
  | .Config message _ => "Configuration error: " ++ message

/-- Display string of a `StravaError` (the `thiserror` formats). -/
def StravaError.display : StravaError → String
  | .Authentication _ _ => "Authentication failed"
  | .Config message _ => "Configuration error: " ++ message
  | .Api message _ => "API error: " ++ message

/-- Debug (`{:?}`) rendering of a `WeightError`. -/
def WeightError.debugRepr : WeightError → String
  | .Auth s => "Auth(\"" ++ s ++ "\")"
  | .Measurement s => "Measurement(\"" ++ s ++ "\")"
  | .NoMeasurements => "NoMeasurements"

/-- Debug (`{:?}`) rendering of an `Option<String>`. -/
def debugOptionString : Option String → String
  | none => "None"
  | some s => "Some(\"" ++ s ++ "\")"

/-- One Withings measure.  The Rust field `value` is an integer that the
code casts with `as f64`; the cast is modelled as the coercion into `ℚ`. -/
structure Measure where
  value : Int
  deriving DecidableEq, Repr

/-- One Withings measurement group: the measures for one timestamp. -/
structure MeasureGrp where
  measures : List Measure
  deriving DecidableEq, Repr

/-- Body of a Withings measurement response. -/
structure MeasurementsBody where
  measuregrps : List MeasureGrp
  deriving DecidableEq, Repr

/-- A Withings measurement response. -/
structure Measurements where
  body : MeasurementsBody
  deriving DecidableEq, Repr

/-- A Strava athlete, as far as this program looks at it: its `id`, plus
the JSON rendering the CLI prints (kept abstract as a string). -/
structure Athlete where
  id : Int
  json : String
  deriving DecidableEq, Repr

/-- A Strava activity-totals block.  The CLI only ever serializes it to
JSON or renders `distance_in_miles()` with `{:.2}`; both renderings are
kept abstract as strings since no claim depends on their content. -/
structure Totals where
  json : String
  milesRendered : String
  deriving DecidableEq, Repr

/-- Strava athlete statistics: the totals blocks the CLI can print. -/
structure AthleteStats where
  json : String
  ytd_run_totals : Totals
  ytd_ride_totals : Totals
  ytd_swim_totals : Totals
  recent_run_totals : Totals
  recent_ride_totals : Totals
  recent_swim_totals : Totals
  deriving DecidableEq, Repr

/-- The ambient world of one run: environment variables, file existence,
current time, and the outcome each external-library call would have.
Each oracle is consulted at the point the code performs the call; the
trace records the call. -/
structure World where
  env : String → Option String
  fileExists : String → Bool
  now : Int
  withingsConfigFile : String
  withingsRefreshToken : Except String String
  withingsGetAccessCode : Except String String
  getMeasurements : Except String Measurements
  stravaLoadedRefreshToken : String
  stravaGetAuthorization : Except String String
  stravaGetRefreshToken : Except String String
  getAthlete : Except String Athlete
  getAthleteStats : Except String AthleteStats
  updateAthleteWeight : Except String String
  loggerInit : Except String Unit

/-- Whether an `Except` is `.ok`, as a Bool. -/
def exOk {ε α : Type} : Except ε α → Bool
  | .ok _ => true
  | .error _ => false

namespace Withings

/-- `get_env_var` from withings.rs: read an environment variable or build
the `WithingsError::Config` report. -/
def get_env_var (w : World) (name : String) : Except (Report WithingsError) String :=
  match w.env name with
  | some v => .ok v
  | none => .error (Report.ofError (.Config
      ("Missing environment variable " ++ name)
      ("Set the " ++ name ++ " environment variable")))

/-- `get_access_token` from withings.rs: read the client secret and id,
then refresh the token when the config file exists, otherwise run the
fresh-authorization flow. -/
def get_access_token (w : World) : Except (Report WithingsError) String × List Event :=
  match get_env_var w "WITHINGS_CLIENT_SECRET" with
  | .error r => (.error (r.wrapErr "Missing client secret"), [])
  | .ok _client_secret =>
    match get_env_var w "WITHINGS_CLIENT_ID" with
    | .error r => (.error (r.wrapErr "Missing client ID"), [])
    | .ok _client_id =>
      let config_file := w.withingsConfigFile
      let call : Except String String × Event :=
        if w.fileExists config_file then (w.withingsRefreshToken, .withingsRefreshToken)
        else (w.withingsGetAccessCode, .withingsGetAccessCode)
      match call.1 with
      | .ok token => (.ok token, [call.2])
      | .error e => (.error (Report.ofError (.Config
          "Failed to obtain access token" ("Error: " ++ e))), [call.2])

/-- `get_weight_by_date` from withings.rs: acquire a token, re-read the
client id, fetch measurements, and return the value of the first measure
of the first measurement group (`first()` is `List.head?`). -/
def get_weight_by_date (w : World) (_lastupdate : String) :
    Except WeightError ℚ × List Event :=
  match get_access_token w with
  | (.error e, tr) => (.error (.Auth (e.render WithingsError.display)), tr)
  | (.ok _access_token, tr) =>
    match get_env_var w "WITHINGS_CLIENT_ID" with
    | .error e => (.error (.Auth (e.render WithingsError.display)), tr)
    | .ok _client_id =>
      match w.getMeasurements with
      | .error e => (.error (.Measurement e), tr ++ [.measureFetch])
      | .ok measurements =>
        match measurements.body.measuregrps.head? with
        | none => (.error .NoMeasurements, tr ++ [.measureFetch])
        | some measuregrp =>
          match measuregrp.measures.head? with
          | none => (.error .NoMeasurements, tr ++ [.measureFetch])
          | some measure => (.ok (measure.value : ℚ), tr ++ [.measureFetch])

/-- `chrono::Duration::days(day)` in seconds. -/
def durationDaysSeconds (day : Int) : Int := day * 86400

/-- Bound of chrono's `TimeDelta`: `i64::MAX` milliseconds, floored to
seconds.  `Duration::days` (and its `Duration::seconds` core) panics for
durations whose magnitude exceeds it. -/
def timeDeltaMaxSeconds : Int := 9223372036854775

/-- Unix timestamp of chrono's `NaiveDateTime::MAX`
(262143-12-31T23:59:59.999999999; chrono's `MAX_YEAR` is
`i32::MAX >> 13 = 262143`). -/
def chronoMaxTimestamp : Int := 8210298412799

/-- Unix timestamp of chrono's `NaiveDateTime::MIN`
(-262144-01-01T00:00:00; chrono's `MIN_YEAR` is
`i32::MIN >> 13 = -262144`). -/
def chronoMinTimestamp : Int := -8334632937600

/-- `get_day_before_timestamp` from withings.rs: `Local::now()` (the
world's current Unix timestamp) minus `day` days, rendered in decimal.
The two chrono calls it delegates to can panic, and the model keeps both
panic paths: `Duration::days(day)` panics when the duration exceeds
`TimeDelta`'s bounds, and the `DateTime - Duration` subtraction panics
(via `checked_sub_signed` on the UTC instant) when the resulting instant
falls outside chrono's representable datetime range. -/
def get_day_before_timestamp (now : Int) (day : Int) : Outcome String :=
  if durationDaysSeconds day < -timeDeltaMaxSeconds ∨
      timeDeltaMaxSeconds < durationDaysSeconds day then
    .panicked "Duration::days out of bounds"
  else
    let a_day_before := now - durationDaysSeconds day
    if a_day_before < chronoMinTimestamp ∨ chronoMaxTimestamp < a_day_before then
      .panicked "DateTime - TimeDelta overflowed"
    else
      .ok (toString a_day_before)

end Withings

namespace Strava

/-- `auth_strava` from strava.rs: read the client id and secret from the
environment, then run the authorization flow unconditionally. -/
def auth_strava (w : World) : Except StravaError String × List Event :=
  match w.env "STRAVA_CLIENT_ID" with
  | none => (.error (.Config "Missing client ID"
      "Set the STRAVA_CLIENT_ID environment variable"), [])
  | some _client_id =>
    match w.env "STRAVA_CLIENT_SECRET" with
    | none => (.error (.Config "Missing client secret"
        "Set the STRAVA_CLIENT_SECRET environment variable"), [])
    | some _client_secret =>
      match w.stravaGetAuthorization with
      | .ok t => (.ok t, [.stravaGetAuthorization])
      | .error e => (.error (.Authentication e
          (some "Check your Strava credentials and try again")), [.stravaGetAuthorization])

/-- `get_access_token` from strava.rs: read the client id and secret, then
refresh the token (loading the stored refresh token) when `config_file`
exists, otherwise run the authorization flow. -/
def get_access_token (w : World) (config_file : String) :
    Except (Report StravaError) String × List Event :=
  match w.env "STRAVA_CLIENT_ID" with
  | none => (.error (Report.ofError (.Config "Missing client ID"
      "Set the STRAVA_CLIENT_ID environment variable")), [])
  | some _client_id =>
    match w.env "STRAVA_CLIENT_SECRET" with
    | none => (.error (Report.ofError (.Config "Missing client secret"
        "Set the STRAVA_CLIENT_SECRET environment variable")), [])
    | some _client_secret =>
      let call : Except String String × Event :=
        if w.fileExists config_file then (w.stravaGetRefreshToken, .stravaGetRefreshToken)
        else (w.stravaGetAuthorization, .stravaGetAuthorization)
      match call.1 with
      | .ok t => (.ok t, [call.2])
      | .error e => (.error (Report.ofError (.Authentication e
          (some "Check your credentials and network connection"))), [call.2])

/-- `obtain_access_token` from strava.rs: config-file path from the
`STRAVA_CONFIG_FILE` environment variable, default `config.json`. -/
def obtain_access_token (w : World) : Except (Report StravaError) String × List Event :=
  let config_file := (w.env "STRAVA_CONFIG_FILE").getD "config.json"
  match get_access_token w config_file with
  | (.error r, tr) => (.error (r.wrapErr "Failed to get access token"), tr)
  | (.ok t, tr) => (.ok t, tr)

/-- `get_authenticated_athlete` from strava.rs. -/
def get_authenticated_athlete (w : World) :
    Except (Report StravaError) Athlete × List Event :=
  match obtain_access_token w with
  | (.error r, tr) => (.error (r.wrapErr "Failed to obtain access token"), tr)
  | (.ok _access_token, tr) =>
    match w.getAthlete with
    | .ok a => (.ok a, tr ++ [.athleteFetch])
    | .error e => (.error (Report.ofError (.Api
        "Failed to get athlete information" (some e))), tr ++ [.athleteFetch])

/-- `get_athlete_stats` from strava.rs: acquire a token, fetch the athlete
(to learn its id — this performs a second token acquisition inside
`get_authenticated_athlete`), then fetch the stats. -/
def get_athlete_stats (w : World) :
    Except (Report StravaError) AthleteStats × List Event :=
  match obtain_access_token w with
  | (.error r, tr) => (.error (r.wrapErr "Failed to obtain access token"), tr)
  | (.ok _access_token, tr1) =>
    match get_authenticated_athlete w with
    | (.error r, tr2) => (.error (r.wrapErr "Failed to get athlete ID"), tr1 ++ tr2)
    | (.ok _athlete, tr2) =>
      match w.getAthleteStats with
      | .ok s => (.ok s, tr1 ++ tr2 ++ [.statsFetch])
      | .error e => (.error (Report.ofError (.Api
          "Failed to get athlete stats" (some e))), tr1 ++ tr2 ++ [.statsFetch])

/-- `update_athlete_weight` from strava.rs: acquire a token, then call the
Strava weight-update endpoint.  The leading `callUpdateAthleteWeight`
event marks the invocation of this repository function itself. -/
def update_athlete_weight (w : World) (weight : String) :
    Except (Report StravaError) String × List Event :=
  match obtain_access_token w with
  | (.error r, tr) =>
    (.error (r.wrapErr "Failed to obtain access token for weight update"),
      .callUpdateAthleteWeight weight :: tr)
  | (.ok _access_token, tr) =>
    match w.updateAthleteWeight with
    | .ok response_status =>
      (.ok response_status, .callUpdateAthleteWeight weight :: (tr ++ [.weightUpdate weight]))
    | .error e =>
      (.error (Report.ofError (.Api "Failed to update athlete weight" (some e))),
        .callUpdateAthleteWeight weight :: (tr ++ [.weightUpdate weight]))

/-- `sync_weight_to_strava` from strava.rs: require a weight value before
doing anything, then print, update, and print again. -/
def sync_weight_to_strava (w : World) (weight_in_kgs : Option String) :
    Except (Report StravaError) Unit × List Event :=
  match weight_in_kgs with
  | none => (.error (Report.ofError (.Api "Weight value is required" none)), [])
  | some weight =>
    match update_athlete_weight w weight with
    | (.error r, tr) =>
      (.error (r.wrapErr "Failed to sync weight with Strava"), .stdout "Syncing to Strava..." :: tr)
    | (.ok _, tr) =>
      (.ok (), .stdout "Syncing to Strava..." :: (tr ++
        [.stdout ("Weight updated in Strava to " ++ weight ++ " kg")]))

end Strava

/-- `get_and_format_weight`, appearing identically in src/utils.rs and
src/main.rs: compute the timestamp argument (this is where an
out-of-range day offset panics inside `get_day_before_timestamp`), fetch
the weight, convert grams to kilograms by dividing by 1000, and render
it; on any `get_weight_by_date` error print to stderr and `exit(1)`. -/
def get_and_format_weight (w : World) (day_offset : Int) :
    Outcome (Option String) × List Event :=
  match Withings.get_day_before_timestamp w.now day_offset with
  | .panicked m => (.panicked m, [.stderr ("thread main panicked: " ++ m)])
  | .exited c => (.exited c, [])
  | .ok lastupdate =>
    match Withings.get_weight_by_date w lastupdate with
    | (.ok weight, tr) => (.ok (some (toString (weight / 1000))), tr)
    | (.error e, tr) =>
      (.exited 1, tr ++ [.stderr ("Failed to get weight for the last 24 hours " ++ e.debugRepr)])

/-- The CLI stats options (`StatsOption` in cli.rs). -/
inductive StatsOption where
  | all
  | ytdRun
  | ytdRunMiles
  | ytdRide
  | ytdSwim
  | recentRun
  | recentRunMiles
  | recentSwim
  | recentRide
  deriving DecidableEq, Repr

/-- The CLI subcommands (`Commands` in cli.rs). -/
inductive Commands where
  | withings (last_weight : Int) (strava_sync : Bool)
  | strava (register : Bool) (get_athlete : Bool) (get_stats : Option StatsOption)
  deriving DecidableEq, Repr

/-- The parsed command line (`Cli` in cli.rs). -/
structure Cli where
  log : Bool
  command : Option Commands
  deriving DecidableEq, Repr

/-- Rust panic message for `Result::unwrap` on an `Err`. -/
def unwrapPanicMsg (e : String) : String :=
  "called Result::unwrap on an Err value: " ++ e

/-- What the CLI prints for one stats option (cli.rs lines 93-140).
`to_colored_json_auto` and `distance_in_miles` renderings are the
pre-rendered strings carried by `AthleteStats`. -/
def renderStatsOutput (o : StatsOption) (stats : AthleteStats) : String :=
  match o with
  | .all => stats.json
  | .ytdRun => stats.ytd_run_totals.json
  | .ytdRunMiles => stats.ytd_run_totals.milesRendered
  | .ytdRide => stats.ytd_ride_totals.json
  | .ytdSwim => stats.ytd_swim_totals.json
  | .recentRun => stats.recent_run_totals.json
  | .recentRunMiles => stats.recent_run_totals.milesRendered
  | .recentSwim => stats.recent_swim_totals.json
  | .recentRide => stats.recent_ride_totals.json

/-- Sequence two traced computations, stopping at an abnormal outcome. -/
def seqRun {α : Type} (x : Outcome Unit × List Event)
    (f : Unit → Outcome α × List Event) : Outcome α × List Event :=
  match x with
  | (.ok _, tr) => ((f ()).1, tr ++ (f ()).2)
  | (.exited c, tr) => (.exited c, tr)
  | (.panicked m, tr) => (.panicked m, tr)

/-- The `register` step of the CLI strava branch: `auth_strava().unwrap()`. -/
def cliStravaRegister (w : World) (register : Bool) : Outcome Unit × List Event :=
  if register then
    match Strava.auth_strava w with
    | (.ok _, tr) => (.ok (), tr)
    | (.error e, tr) =>
      (.panicked (unwrapPanicMsg e.display),
        tr ++ [.stderr ("thread main panicked: " ++ unwrapPanicMsg e.display)])
  else (.ok (), [])

/-- The `get_athlete` step of the CLI strava branch. -/
def cliStravaAthlete (w : World) (get_athlete : Bool) : Outcome Unit × List Event :=
  if get_athlete then
    match Strava.get_authenticated_athlete w with
    | (.ok athlete, tr) => (.ok (), tr ++ [.stdout athlete.json])
    | (.error r, tr) =>
      (.panicked (unwrapPanicMsg (r.render StravaError.display)),
        tr ++ [.stderr ("thread main panicked: " ++
          unwrapPanicMsg (r.render StravaError.display))])
  else (.ok (), [])

/-- The `get_stats` step of the CLI strava branch. -/
def cliStravaStats (w : World) (get_stats : Option StatsOption) : Outcome Unit × List Event :=
  match get_stats with
  | none => (.ok (), [])
  | some o =>
    match Strava.get_athlete_stats w with
    | (.ok stats, tr) => (.ok (), tr ++ [.stdout (renderStatsOutput o stats)])
    | (.error r, tr) =>
      (.panicked (unwrapPanicMsg (r.render StravaError.display)),
        tr ++ [.stderr ("thread main panicked: " ++
          unwrapPanicMsg (r.render StravaError.display))])

/-- The strava branch of `cli` (cli.rs lines 80-142): the three steps run
in order, each aborting the process on failure via `unwrap`. -/
def cliStrava (w : World) (register get_athlete : Bool) (get_stats : Option StatsOption) :
    Outcome Unit × List Event :=
  seqRun (cliStravaRegister w register) (fun _ =>
    seqRun (cliStravaAthlete w get_athlete) (fun _ =>
      cliStravaStats w get_stats))

/-- The withings branch of `cli` (cli.rs lines 68-79): fetch and format
the weight, print it and the flag, and sync to Strava only when
`strava_sync` is set (`expect` panics if the sync fails). -/
def cliWithings (w : World) (last_weight : Int) (strava_sync : Bool) :
    Outcome Unit × List Event :=
  match get_and_format_weight w last_weight with
  | (.exited c, tr) => (.exited c, tr)
  | (.panicked m, tr) => (.panicked m, tr)
  | (.ok weight_in_kgs, tr) =>
    let tr := tr ++ [.stdout ("weight: " ++ debugOptionString weight_in_kgs),
      .stdout ("strava_sync: " ++ toString strava_sync)]
    if strava_sync then
      match Strava.sync_weight_to_strava w weight_in_kgs with
      | (.ok _, tr2) => (.ok (), tr ++ tr2)
      | (.error r, tr2) =>
        (.panicked ("TODO: panic message: " ++ r.render StravaError.display),
          tr ++ tr2 ++ [.stderr ("thread main panicked: TODO: panic message: " ++
            r.render StravaError.display)])
    else (.ok (), tr)

/-- The logger-initialization step of `cli`: `init().unwrap()` when the
`log` flag is set. -/
def cliLogInit (c : Cli) (w : World) : Outcome Unit × List Event :=
  if c.log then
    match w.loggerInit with
    | .ok _ => (.ok (), [])
    | .error e =>
      (.panicked (unwrapPanicMsg e),
        [.stderr ("thread main panicked: " ++ unwrapPanicMsg e)])
  else (.ok (), [])

/-- `cli` from cli.rs: one full CLI invocation. -/
def cliRun (c : Cli) (w : World) : Outcome Unit × List Event :=
  seqRun (cliLogInit c w) (fun _ =>
    match c.command with
    | some (.withings last_weight strava_sync) => cliWithings w last_weight strava_sync
    | some (.strava register get_athlete get_stats) =>
      cliStrava w register get_athlete get_stats
    | none => (.ok (), [.stdout "No command specified"]))

namespace Main

/-- The clap matches `process_cli` in src/main.rs inspects: the withings
subcommand with an optional `last` value and the `strava-sync` flag, or
any other subcommand (which hits `unreachable!()`). -/
inductive Subcommand where
  | withings (last : Option Int) (strava_sync : Bool)
  | other
  deriving DecidableEq, Repr

/-- `sync_strava` from src/main.rs: unwrap the weight (panicking on
`None`), call `update_athlete_weight` — discarding its result — and
print.  This is the older revision of the sync path. -/
def sync_strava (w : World) (weight_in_kgs : Option String) : Outcome Unit × List Event :=
  match weight_in_kgs with
  | none =>
    (.panicked "called Option::unwrap on a None value",
      [.stdout "Syncing to Strava...\n",
       .stderr "thread main panicked: called Option::unwrap on a None value"])
  | some weight =>
    (.ok (), .stdout "Syncing to Strava...\n" :: ((Strava.update_athlete_weight w weight).2 ++
      [.stdout ("Weight updated in Strava to " ++ weight ++ " kg\n")]))

/-- `process_cli` from src/main.rs: the older revision of the CLI driver.
When the `last` argument is absent nothing happens; otherwise the weight
is fetched and, only when the flag is set, synced via `sync_strava`. -/
def process_cli (w : World) (args : Subcommand) : Outcome Unit × List Event :=
  match args with
  | .withings none _ => (.ok (), [])
  | .withings (some day_offset) strava_sync =>
    let tr0 := [Event.stdout ("Getting weight for the day from " ++ toString day_offset ++ "\n")]
    match get_and_format_weight w day_offset with
    | (.exited c, tr) => (.exited c, tr0 ++ tr)
    | (.panicked m, tr) => (.panicked m, tr0 ++ tr)
    | (.ok weight_in_kgs, tr) =>
      if strava_sync then
        ((sync_strava w weight_in_kgs).1, tr0 ++ tr ++ (sync_strava w weight_in_kgs).2)
      else (.ok (), tr0 ++ tr)
  | .other =>
    (.panicked "internal error: entered unreachable code",
      [.stderr "thread main panicked: internal error: entered unreachable code"])

end Main

/-- Is this event an OAuth token acquisition or refresh (either API)? -/
def Event.isTokenAcq : Event → Bool
  | .withingsRefreshToken => true
  | .withingsGetAccessCode => true
  | .stravaGetAuthorization => true
  | .stravaGetRefreshToken => true
  | _ => false

/-- Is this event a Withings measurement fetch? -/
def Event.isMeasureFetch : Event → Bool
  | .measureFetch => true
  | _ => false

/-- Is this event a Strava weight-update or stats-read API call? -/
def Event.isWeightUpdOrStats : Event → Bool
  | .weightUpdate _ => true
  | .statsFetch => true
  | _ => false

/-- Is this event any Strava-side activity (token acquisition, athlete or
stats read, weight update, or an `update_athlete_weight` invocation)? -/
def Event.isStravaSide : Event → Bool
  | .stravaGetAuthorization => true
  | .stravaGetRefreshToken => true
  | .athleteFetch => true
  | .statsFetch => true
  | .weightUpdate _ => true
  | .callUpdateAthleteWeight _ => true
  | _ => false

/-- Is this event an invocation of `update_athlete_weight`? -/
def Event.isCallUpdate : Event → Bool
  | .callUpdateAthleteWeight _ => true
  | _ => false

/-- Number of token acquisitions/refreshes in a trace. -/
def nTok (tr : List Event) : Nat := tr.countP Event.isTokenAcq

/-- Number of measurement fetches in a trace. -/
def nMeas (tr : List Event) : Nat := tr.countP Event.isMeasureFetch

/-- Number of weight-update or stats-read API calls in a trace. -/
def nUS (tr : List Event) : Nat := tr.countP Event.isWeightUpdOrStats

/-- Number of occurrences of one specific event in a trace. -/
def nEv (e : Event) (tr : List Event) : Nat := tr.countP (fun x => decide (x = e))

/-- Abnormal terminations report to stderr and exit non-zero: `exit(c)`
only with `c ≠ 0` and after an stderr write recorded in the trace; a
panic likewise has its message recorded on stderr (the Rust runtime then
exits with a non-zero status). -/
def errorsReported (o : Outcome Unit) (tr : List Event) : Prop :=
  match o with
  | .ok _ => True
  | .exited c => c ≠ 0 ∧ ∃ s, Event.stderr s ∈ tr
  | .panicked _ => ∃ s, Event.stderr s ∈ tr

/-- An environment holding all five configuration variables. -/
def envAll : String → Option String := fun name =>
  if name = "WITHINGS_CLIENT_ID" then some "wid"
  else if name = "WITHINGS_CLIENT_SECRET" then some "wsec"
  else if name = "STRAVA_CLIENT_ID" then some "sid"
  else if name = "STRAVA_CLIENT_SECRET" then some "ssec"
  else if name = "STRAVA_CONFIG_FILE" then some "strava.json"
  else none

/-- A measurement response with one group holding one measure (72500 g). -/
def measOne : Measurements := ⟨⟨[⟨[⟨72500⟩]⟩]⟩⟩

/-- A stats object with distinct rendered strings. -/
def statsOne : AthleteStats :=
  ⟨"stats-all", ⟨"yr", "yrm"⟩, ⟨"yd", "ydm"⟩, ⟨"ys", "ysm"⟩,
    ⟨"rr", "rrm"⟩, ⟨"rd", "rdm"⟩, ⟨"rs", "rsm"⟩⟩

/-- A fully successful world: all variables set, no config files on disk
(so both modules take the fresh-authorization branch), every external
call succeeds, one measurement of 72500 grams available. -/
def wOK : World where
  env := envAll
  fileExists := fun _ => false
  now := 1700000000
  withingsConfigFile := "withings.json"
  withingsRefreshToken := .ok "wrt"
  withingsGetAccessCode := .ok "wac"
  getMeasurements := .ok measOne
  stravaLoadedRefreshToken := "srt0"
  stravaGetAuthorization := .ok "sauth"
  stravaGetRefreshToken := .ok "srefresh"
  getAthlete := .ok ⟨42, "athlete-json"⟩
  getAthleteStats := .ok statsOne
  updateAthleteWeight := .ok "200 OK"
  loggerInit := .ok ()

/-- `wOK` but with both config files present on disk. -/
def wOKFiles : World := { wOK with fileExists := fun _ => true }

/-- `wOK` but with an empty environment. -/
def wNoEnv : World := { wOK with env := fun _ => none }

/-- `wOK` but the measurement response has no measurement groups. -/
def wEmptyMeas : World := { wOK with getMeasurements := .ok ⟨⟨[]⟩⟩ }

/-- `wOK` but the first measurement group has no measures. -/
def wEmptyGrp : World := { wOK with getMeasurements := .ok ⟨⟨[⟨[]⟩]⟩⟩ }

/-- `wOK` but the Strava authorization flow fails. -/
def wStravaAuthFail : World := { wOK with stravaGetAuthorization := .error "denied" }

/-- `wOK` but only the Withings variables are set. -/
def wNoStravaEnv : World :=
  { wOK with env := fun name =>
      if name = "WITHINGS_CLIENT_ID" then some "wid"
      else if name = "WITHINGS_CLIENT_SECRET" then some "wsec"
      else none }

/-- Is this outcome a panic? -/
def isPanic {α : Type} : Outcome α → Bool
  | .panicked _ => true
  | _ => false

/-- The command line of the C1 counterexample run: `withings
--last-weight 1 --strava-sync`. -/
def cexCli : Cli := ⟨false, some (.withings 1 true)⟩

/-- Is this event console output (no external call)? -/
def consoleEvent : Event → Bool
  | .stdout _ => true
  | .stderr _ => true
  | _ => false

/-- Bounds on the three call counters of a trace. -/
def CountsLE (tr : List Event) (a b c : Nat) : Prop :=
  nTok tr ≤ a ∧ nMeas tr ≤ b ∧ nUS tr ≤ c

theorem countsLE_append {t1 t2 : List Event} {a1 b1 c1 a2 b2 c2 : Nat}
    (h1 : CountsLE t1 a1 b1 c1) (h2 : CountsLE t2 a2 b2 c2) :
    CountsLE (t1 ++ t2) (a1 + a2) (b1 + b2) (c1 + c2) := by
  obtain ⟨x1, y1, z1⟩ := h1
  obtain ⟨x2, y2, z2⟩ := h2
  refine ⟨?_, ?_, ?_⟩ <;>
    simp only [nTok, nMeas, nUS, List.countP_append] at * <;> omega

theorem countsLE_mono {tr : List Event} {a b c a' b' c' : Nat}
    (h : CountsLE tr a b c) (ha : a ≤ a') (hb : b ≤ b') (hc : c ≤ c') :
    CountsLE tr a' b' c' := by
  obtain ⟨x, y, z⟩ := h
  exact ⟨x.trans ha, y.trans hb, z.trans hc⟩

theorem countsLE_nil : CountsLE [] 0 0 0 := by
  refine ⟨?_, ?_, ?_⟩ <;> simp [nTok, nMeas, nUS]

theorem counts_console {l : List Event} (h : ∀ e ∈ l, consoleEvent e = true) :
    CountsLE l 0 0 0 := by
  refine ⟨?_, ?_, ?_⟩ <;>
    simp only [nTok, nMeas, nUS, Nat.le_zero, List.countP_eq_zero] <;>
    intro e he <;> have := h e he <;>
    cases e <;> simp_all [consoleEvent, Event.isTokenAcq, Event.isMeasureFetch,
      Event.isWeightUpdOrStats]

/-- Trace of the Withings token acquisition: empty, or exactly one of
the two Withings auth calls. -/
theorem withings_gat_trace (w : World) :
    (Withings.get_access_token w).2 = [] ∨
    (Withings.get_access_token w).2 = [Event.withingsRefreshToken] ∨
    (Withings.get_access_token w).2 = [Event.withingsGetAccessCode] := by
  unfold Withings.get_access_token
  rcases Withings.get_env_var w "WITHINGS_CLIENT_SECRET" with e | v <;> simp
  rcases Withings.get_env_var w "WITHINGS_CLIENT_ID" with e | v <;> simp
  by_cases hf : w.fileExists w.withingsConfigFile <;> simp [hf] <;> split <;> simp

theorem counts_withings_gat (w : World) : CountsLE (Withings.get_access_token w).2 1 0 0 := by
  rcases withings_gat_trace w with h | h | h <;> rw [h] <;>
    refine ⟨?_, ?_, ?_⟩ <;>
    simp [nTok, nMeas, nUS, Event.isTokenAcq, Event.isMeasureFetch, Event.isWeightUpdOrStats]

/-- Trace of `get_weight_by_date`: the token-acquisition trace, possibly
followed by the single measurement fetch. -/
theorem gwbd_decomp (w : World) (s : String) :
    ∃ t, (Withings.get_weight_by_date w s).2 = (Withings.get_access_token w).2 ++ t ∧
      (t = [] ∨ t = [Event.measureFetch]) := by
  unfold Withings.get_weight_by_date
  rcases h : Withings.get_access_token w with ⟨r, tr⟩
  rcases r with e | v <;> simp
  rcases Withings.get_env_var w "WITHINGS_CLIENT_ID" with e | v <;> simp
  rcases w.getMeasurements with e | m <;> simp
  rcases m.body.measuregrps.head? with _ | g <;> simp
  rcases g.measures.head? with _ | mm <;> simp

theorem counts_gwbd (w : World) (s : String) :
    CountsLE (Withings.get_weight_by_date w s).2 1 1 0 := by
  obtain ⟨t, ht, hcases⟩ := gwbd_decomp w s
  rw [ht]
  have h2 : CountsLE t 0 1 0 := by
    rcases hcases with h | h <;> rw [h] <;> refine ⟨?_, ?_, ?_⟩ <;>
      simp [nTok, nMeas, nUS, Event.isTokenAcq, Event.isMeasureFetch, Event.isWeightUpdOrStats]
  exact countsLE_append (counts_withings_gat w) h2

/-- `get_day_before_timestamp` either returns the rendered timestamp or
panics; it never calls `exit`. -/
theorem gdbt_cases (now day : Int) :
    Withings.get_day_before_timestamp now day =
      .ok (toString (now - Withings.durationDaysSeconds day)) ∨
    ∃ m, Withings.get_day_before_timestamp now day = .panicked m := by
  unfold Withings.get_day_before_timestamp
  split
  · exact Or.inr ⟨_, rfl⟩
  · dsimp only
    split
    · exact Or.inr ⟨_, rfl⟩
    · exact Or.inl rfl

/-- Trace of `get_and_format_weight`: one stderr report when the
timestamp computation panics, otherwise the `get_weight_by_date` trace,
possibly followed by one stderr report. -/
theorem gafw_decomp (w : World) (d : Int) :
    (∃ m, (get_and_format_weight w d).2 = [Event.stderr m]) ∨
    ∃ ts t, Withings.get_day_before_timestamp w.now d = .ok ts ∧
      (get_and_format_weight w d).2 = (Withings.get_weight_by_date w ts).2 ++ t ∧
      (t = [] ∨ ∃ m, t = [Event.stderr m]) := by
  unfold get_and_format_weight
  rcases hd : Withings.get_day_before_timestamp w.now d with ts | c | m
  · refine Or.inr ⟨ts, ?_⟩
    rcases h : Withings.get_weight_by_date w ts with ⟨r, tr⟩
    rcases r with e | v <;> simp [h]
  · rcases gdbt_cases w.now d with h | ⟨m, h⟩ <;> rw [h] at hd <;> cases hd
  · exact Or.inl ⟨_, rfl⟩

theorem counts_gafw (w : World) (d : Int) : CountsLE (get_and_format_weight w d).2 1 1 0 := by
  rcases gafw_decomp w d with ⟨m, hm⟩ | ⟨ts, t, hts, ht, hcases⟩
  · rw [hm]
    refine ⟨?_, ?_, ?_⟩ <;>
      simp [nTok, nMeas, nUS, Event.isTokenAcq, Event.isMeasureFetch, Event.isWeightUpdOrStats]
  · rw [ht]
    have h2 : CountsLE t 0 0 0 := by
      rcases hcases with h | ⟨m, h⟩ <;> rw [h] <;> refine ⟨?_, ?_, ?_⟩ <;>
        simp [nTok, nMeas, nUS, Event.isTokenAcq, Event.isMeasureFetch, Event.isWeightUpdOrStats]
    simpa using countsLE_append (counts_gwbd w ts) h2

/-- Trace of `auth_strava`: empty or exactly the authorization call. -/
theorem auth_strava_trace (w : World) :
    (Strava.auth_strava w).2 = [] ∨
    (Strava.auth_strava w).2 = [Event.stravaGetAuthorization] := by
  unfold Strava.auth_strava
  rcases w.env "STRAVA_CLIENT_ID" with _ | v <;> simp
  rcases w.env "STRAVA_CLIENT_SECRET" with _ | v <;> simp
  rcases w.stravaGetAuthorization with e | t <;> simp

theorem counts_auth_strava (w : World) : CountsLE (Strava.auth_strava w).2 1 0 0 := by
  rcases auth_strava_trace w with h | h <;> rw [h] <;> refine ⟨?_, ?_, ?_⟩ <;>
    simp [nTok, nMeas, nUS, Event.isTokenAcq, Event.isMeasureFetch, Event.isWeightUpdOrStats]

/-- Trace of the Strava `get_access_token`: empty, or exactly one of the
two Strava auth calls. -/
theorem strava_gat_trace (w : World) (cf : String) :
    (Strava.get_access_token w cf).2 = [] ∨
    (Strava.get_access_token w cf).2 = [Event.stravaGetRefreshToken] ∨
    (Strava.get_access_token w cf).2 = [Event.stravaGetAuthorization] := by
  unfold Strava.get_access_token
  rcases w.env "STRAVA_CLIENT_ID" with _ | v <;> simp
  rcases w.env "STRAVA_CLIENT_SECRET" with _ | v <;> simp
  by_cases hf : w.fileExists cf <;> simp [hf] <;> split <;> simp

theorem counts_strava_gat (w : World) (cf : String) :
    CountsLE (Strava.get_access_token w cf).2 1 0 0 := by
  rcases strava_gat_trace w cf with h | h | h <;> rw [h] <;> refine ⟨?_, ?_, ?_⟩ <;>
    simp [nTok, nMeas, nUS, Event.isTokenAcq, Event.isMeasureFetch, Event.isWeightUpdOrStats]

/-- `obtain_access_token` adds no events of its own. -/
theorem obtain_trace_eq (w : World) :
    (Strava.obtain_access_token w).2 =
    (Strava.get_access_token w ((w.env "STRAVA_CONFIG_FILE").getD "config.json")).2 := by
  unfold Strava.obtain_access_token
  rcases h : Strava.get_access_token w ((w.env "STRAVA_CONFIG_FILE").getD "config.json")
    with ⟨r, tr⟩
  rcases r with e | v <;> simp [h]

theorem counts_obtain (w : World) : CountsLE (Strava.obtain_access_token w).2 1 0 0 := by
  rw [obtain_trace_eq w]
  exact counts_strava_gat w _

/-- Trace of `get_authenticated_athlete`: the token acquisition, possibly
followed by the single athlete fetch. -/
theorem athlete_decomp (w : World) :
    ∃ t, (Strava.get_authenticated_athlete w).2 = (Strava.obtain_access_token w).2 ++ t ∧
      (t = [] ∨ t = [Event.athleteFetch]) := by
  unfold Strava.get_authenticated_athlete
  rcases h : Strava.obtain_access_token w with ⟨r, tr⟩
  rcases r with e | v <;> simp
  rcases w.getAthlete with e | a <;> simp

theorem counts_athlete (w : World) :
    CountsLE (Strava.get_authenticated_athlete w).2 1 0 0 := by
  obtain ⟨t, ht, hcases⟩ := athlete_decomp w
  rw [ht]
  have h2 : CountsLE t 0 0 0 := by
    rcases hcases with h | h <;> rw [h] <;> refine ⟨?_, ?_, ?_⟩ <;>
      simp [nTok, nMeas, nUS, Event.isTokenAcq, Event.isMeasureFetch, Event.isWeightUpdOrStats]
  simpa using countsLE_append (counts_obtain w) h2

/-- Trace of `get_athlete_stats`: either the failed token acquisition, or
the token acquisition followed by the athlete retrieval and possibly the
single stats fetch. -/
theorem stats_decomp (w : World) :
    (Strava.get_athlete_stats w).2 = (Strava.obtain_access_token w).2 ∨
    ∃ t, (Strava.get_athlete_stats w).2 =
      (Strava.obtain_access_token w).2 ++ (Strava.get_authenticated_athlete w).2 ++ t ∧
      (t = [] ∨ t = [Event.statsFetch]) := by
  unfold Strava.get_athlete_stats
  rcases h : Strava.obtain_access_token w with ⟨r, tr⟩
  rcases r with e | v <;> simp
  rcases h2 : Strava.get_authenticated_athlete w with ⟨r2, tr2⟩
  rcases r2 with e | a <;> simp
  rcases w.getAthleteStats with e | st <;> simp

theorem counts_stats (w : World) : CountsLE (Strava.get_athlete_stats w).2 2 0 1 := by
  rcases stats_decomp w with h | ⟨t, ht, hcases⟩
  · rw [h]; exact countsLE_mono (counts_obtain w) (by omega) (by omega) (by omega)
  · rw [ht]
    have h2 : CountsLE t 0 0 1 := by
      rcases hcases with h | h <;> rw [h] <;> refine ⟨?_, ?_, ?_⟩ <;>
        simp [nTok, nMeas, nUS, Event.isTokenAcq, Event.isMeasureFetch, Event.isWeightUpdOrStats]
    simpa using countsLE_append (countsLE_append (counts_obtain w) (counts_athlete w)) h2

/-- Trace of `update_athlete_weight`: the invocation marker, the token
acquisition, and possibly the single weight-update call. -/
theorem update_decomp (w : World) (s : String) :
    ∃ t, (Strava.update_athlete_weight w s).2 =
      Event.callUpdateAthleteWeight s :: ((Strava.obtain_access_token w).2 ++ t) ∧
      (t = [] ∨ t = [Event.weightUpdate s]) := by
  unfold Strava.update_athlete_weight
  rcases h : Strava.obtain_access_token w with ⟨r, tr⟩
  rcases r with e | v <;> simp
  rcases w.updateAthleteWeight with e | st <;> simp

theorem counts_update (w : World) (s : String) :
    CountsLE (Strava.update_athlete_weight w s).2 1 0 1 := by
  obtain ⟨t, ht, hcases⟩ := update_decomp w s
  rw [ht, ← List.singleton_append]
  have h2 : CountsLE t 0 0 1 := by
    rcases hcases with h | h <;> rw [h] <;> refine ⟨?_, ?_, ?_⟩ <;>
      simp [nTok, nMeas, nUS, Event.isTokenAcq, Event.isMeasureFetch, Event.isWeightUpdOrStats]
  have h1 : CountsLE [Event.callUpdateAthleteWeight s] 0 0 0 := by
    refine ⟨?_, ?_, ?_⟩ <;>
      simp [nTok, nMeas, nUS, Event.isTokenAcq, Event.isMeasureFetch, Event.isWeightUpdOrStats]
  simpa using countsLE_append h1 (countsLE_append (counts_obtain w) h2)

/-- Trace of `sync_weight_to_strava` on `none`: empty. -/
theorem sync_none_trace (w : World) : (Strava.sync_weight_to_strava w none).2 = [] := rfl

/-- Trace of `sync_weight_to_strava` on `some`: the opening print, the
`update_athlete_weight` trace, and possibly the closing print. -/
theorem sync_some_decomp (w : World) (s : String) :
    ∃ t, (Strava.sync_weight_to_strava w (some s)).2 =
      Event.stdout "Syncing to Strava..." :: ((Strava.update_athlete_weight w s).2 ++ t) ∧
      (t = [] ∨ ∃ m, t = [Event.stdout m]) := by
  unfold Strava.sync_weight_to_strava
  rcases h : Strava.update_athlete_weight w s with ⟨r, tr⟩
  rcases r with e | v <;> simp [h]

theorem counts_sync (w : World) (o : Option String) :
    CountsLE (Strava.sync_weight_to_strava w o).2 1 0 1 := by
  rcases o with _ | s
  · rw [sync_none_trace]
    exact countsLE_mono countsLE_nil (by omega) (by omega) (by omega)
  · obtain ⟨t, ht, hcases⟩ := sync_some_decomp w s
    rw [ht, ← List.singleton_append]
    have h2 : CountsLE t 0 0 0 := by
      rcases hcases with h | ⟨m, h⟩ <;> rw [h] <;> refine ⟨?_, ?_, ?_⟩ <;>
        simp [nTok, nMeas, nUS, Event.isTokenAcq, Event.isMeasureFetch, Event.isWeightUpdOrStats]
    have h1 : CountsLE [Event.stdout "Syncing to Strava..."] 0 0 0 := by
      refine ⟨?_, ?_, ?_⟩ <;>
        simp [nTok, nMeas, nUS, Event.isTokenAcq, Event.isMeasureFetch, Event.isWeightUpdOrStats]
    simpa using countsLE_append h1 (countsLE_append (counts_update w s) h2)

theorem counts_pair_stdout (a b : String) :
    CountsLE [Event.stdout a, Event.stdout b] 0 0 0 := by
  refine ⟨?_, ?_, ?_⟩ <;>
    simp [nTok, nMeas, nUS, Event.isTokenAcq, Event.isMeasureFetch, Event.isWeightUpdOrStats]

theorem counts_one_stderr (a : String) : CountsLE [Event.stderr a] 0 0 0 := by
  refine ⟨?_, ?_, ?_⟩ <;>
    simp [nTok, nMeas, nUS, Event.isTokenAcq, Event.isMeasureFetch, Event.isWeightUpdOrStats]

theorem counts_one_stdout (a : String) : CountsLE [Event.stdout a] 0 0 0 := by
  refine ⟨?_, ?_, ?_⟩ <;>
    simp [nTok, nMeas, nUS, Event.isTokenAcq, Event.isMeasureFetch, Event.isWeightUpdOrStats]

/-- Call counts of the withings CLI branch: at most two token
acquisitions (Withings, then Strava inside the sync), one measurement
fetch, one weight-update/stats call. -/
theorem counts_cliWithings (w : World) (lw : Int) (sync : Bool) :
    CountsLE (cliWithings w lw sync).2 2 1 1 := by
  unfold cliWithings
  rcases h : get_and_format_weight w lw with ⟨o, tr0⟩
  have h0 : CountsLE tr0 1 1 0 := by have := counts_gafw w lw; rwa [h] at this
  rcases o with v | c | m <;> simp [h]
  · cases sync <;> simp
    · exact countsLE_mono (by simpa using countsLE_append h0 (counts_pair_stdout _ _))
        (by omega) (by omega) (by omega)
    · rcases h2 : Strava.sync_weight_to_strava w v with ⟨r2, tr2⟩
      have hs2 : CountsLE tr2 1 0 1 := by have := counts_sync w v; rwa [h2] at this
      rcases r2 with e | u <;> simp [h2]
      · simpa using countsLE_append (countsLE_append
          (countsLE_append h0 (counts_pair_stdout _ _)) hs2) (counts_one_stderr _)
      · simpa using countsLE_append (countsLE_append h0 (counts_pair_stdout _ _)) hs2
  · exact countsLE_mono h0 (by omega) (by omega) (by omega)
  · exact countsLE_mono h0 (by omega) (by omega) (by omega)

theorem counts_cliRegister (w : World) (register : Bool) :
    CountsLE (cliStravaRegister w register).2 1 0 0 := by
  unfold cliStravaRegister
  cases register <;> simp
  · exact countsLE_mono countsLE_nil (by omega) (by omega) (by omega)
  · rcases h : Strava.auth_strava w with ⟨r, tr⟩
    have h0 : CountsLE tr 1 0 0 := by have := counts_auth_strava w; rwa [h] at this
    rcases r with e | v <;> simp [h]
    · simpa using countsLE_append h0 (counts_one_stderr _)
    · exact h0

theorem counts_cliAthleteStep (w : World) (ga : Bool) :
    CountsLE (cliStravaAthlete w ga).2 1 0 0 := by
  unfold cliStravaAthlete
  cases ga <;> simp
  · exact countsLE_mono countsLE_nil (by omega) (by omega) (by omega)
  · rcases h : Strava.get_authenticated_athlete w with ⟨r, tr⟩
    have h0 : CountsLE tr 1 0 0 := by have := counts_athlete w; rwa [h] at this
    rcases r with e | v <;> simp [h]
    · simpa using countsLE_append h0 (counts_one_stderr _)
    · simpa using countsLE_append h0 (counts_one_stdout _)

theorem counts_cliStatsStep (w : World) (gs : Option StatsOption) :
    CountsLE (cliStravaStats w gs).2 2 0 1 := by
  unfold cliStravaStats
  rcases gs with _ | o <;> simp
  · exact countsLE_mono countsLE_nil (by omega) (by omega) (by omega)
  · rcases h : Strava.get_athlete_stats w with ⟨r, tr⟩
    have h0 : CountsLE tr 2 0 1 := by have := counts_stats w; rwa [h] at this
    rcases r with e | v <;> simp [h]
    · simpa using countsLE_append h0 (counts_one_stderr _)
    · simpa using countsLE_append h0 (counts_one_stdout _)

/-- Trace of `seqRun`: the first trace, possibly followed by the second. -/
theorem seqRun_decomp {α : Type} (x : Outcome Unit × List Event)
    (f : Unit → Outcome α × List Event) :
    ∃ t, (seqRun x f).2 = x.2 ++ t ∧ (t = [] ∨ t = (f ()).2) := by
  unfold seqRun
  rcases x with ⟨o, tr⟩
  rcases o with v | c | m <;> simp

theorem countsLE_seqRun {α : Type} {x : Outcome Unit × List Event}
    {f : Unit → Outcome α × List Event} {a1 b1 c1 a2 b2 c2 : Nat}
    (h1 : CountsLE x.2 a1 b1 c1) (h2 : CountsLE (f ()).2 a2 b2 c2) :
    CountsLE (seqRun x f).2 (a1 + a2) (b1 + b2) (c1 + c2) := by
  obtain ⟨t, ht, hcases⟩ := seqRun_decomp x f
  rw [ht]
  rcases hcases with h | h
  · subst h
    exact countsLE_mono (by simpa using h1) (by omega) (by omega) (by omega)
  · subst h
    exact countsLE_append h1 h2

theorem counts_cliStrava (w : World) (register ga : Bool) (gs : Option StatsOption) :
    CountsLE (cliStrava w register ga gs).2 4 0 1 := by
  unfold cliStrava
  have inner : CountsLE
      (seqRun (cliStravaAthlete w ga) (fun _ => cliStravaStats w gs)).2 (1 + 2) (0 + 0) (0 + 1) :=
    countsLE_seqRun (counts_cliAthleteStep w ga) (counts_cliStatsStep w gs)
  have outer : CountsLE
      (seqRun (cliStravaRegister w register) (fun _ =>
        seqRun (cliStravaAthlete w ga) (fun _ => cliStravaStats w gs))).2
      (1 + (1 + 2)) (0 + (0 + 0)) (0 + (0 + 1)) :=
    countsLE_seqRun (counts_cliRegister w register) inner
  exact countsLE_mono outer (by omega) (by omega) (by omega)

theorem counts_cliLogInit (c : Cli) (w : World) : CountsLE (cliLogInit c w).2 0 0 0 := by
  unfold cliLogInit
  cases c.log <;> simp
  · exact countsLE_nil
  · rcases w.loggerInit with e | u <;> simp
    · exact counts_one_stderr _
    · exact countsLE_nil

/-- C1 (counterexample): on the concrete run `withings --last-weight 1
--strava-sync` in a fully successful world, the program performs two
OAuth token acquisitions (one Withings, one Strava), so "at most one
token acquisition or refresh per run" is false as stated; moreover the
run `strava` with no options selected succeeds while printing nothing at
all (its trace is empty), so "after which the program prints formatted
output" is also false as stated. -/
theorem C1_counterexample :
    (¬ (nTok (cliRun cexCli wOK).2 ≤ 1)) ∧
    (cliRun ⟨false, some (.strava false false none)⟩ wOK).1 = .ok () ∧
    (cliRun ⟨false, some (.strava false false none)⟩ wOK).2 = [] := by
  refine ⟨by decide, rfl, rfl⟩

/-- C10: `sync_weight_to_strava(None)` returns the API error "Weight
value is required" with an empty trace — no token acquisition and no
weight-update call; on `Some(s)` it invokes `update_athlete_weight`
exactly once, and with exactly the weight `s`. -/
theorem C10_sync_requires_weight (w : World) (s : String) :
    (Strava.sync_weight_to_strava w none).1 =
      .error (Report.ofError (.Api "Weight value is required" none)) ∧
    (Strava.sync_weight_to_strava w none).2 = [] ∧
    nEv (.callUpdateAthleteWeight s) (Strava.sync_weight_to_strava w (some s)).2 = 1 ∧
    (Strava.sync_weight_to_strava w (some s)).2.countP Event.isCallUpdate = 1 := by
  refine ⟨rfl, rfl, ?_, ?_⟩ <;>
  · obtain ⟨t, ht, hc⟩ := sync_some_decomp w s
    obtain ⟨t2, ht2, hc2⟩ := update_decomp w s
    rw [ht, ht2]
    have hobt := strava_gat_trace w ((w.env "STRAVA_CONFIG_FILE").getD "config.json")
    rw [← obtain_trace_eq w] at hobt
    rcases hobt with h | h | h <;> rw [h] <;>
      rcases hc with rfl | ⟨m, rfl⟩ <;> rcases hc2 with rfl | rfl <;>
      simp [nEv, Event.isCallUpdate, List.countP_cons, List.countP_append]

/-- C4: with the client credentials present in the environment, both
token acquisitions branch on config-file existence and on nothing else:
the trace is exactly the refresh call when the file exists, and exactly
the fresh-authorization call when it does not. -/
theorem C4_refresh_iff_config_file (w : World)
    (hwid : (w.env "WITHINGS_CLIENT_ID").isSome = true)
    (hwsec : (w.env "WITHINGS_CLIENT_SECRET").isSome = true)
    (hsid : (w.env "STRAVA_CLIENT_ID").isSome = true)
    (hssec : (w.env "STRAVA_CLIENT_SECRET").isSome = true) :
    ((Withings.get_access_token w).2 =
      if w.fileExists w.withingsConfigFile then [Event.withingsRefreshToken]
      else [Event.withingsGetAccessCode]) ∧
    (∀ cf, (Strava.get_access_token w cf).2 =
      if w.fileExists cf then [Event.stravaGetRefreshToken]
      else [Event.stravaGetAuthorization]) := by
  obtain ⟨wid, hwid'⟩ := Option.isSome_iff_exists.mp hwid
  obtain ⟨wsec, hwsec'⟩ := Option.isSome_iff_exists.mp hwsec
  obtain ⟨sid, hsid'⟩ := Option.isSome_iff_exists.mp hsid
  obtain ⟨ssec, hssec'⟩ := Option.isSome_iff_exists.mp hssec
  constructor
  · unfold Withings.get_access_token Withings.get_env_var
    simp only [hwid', hwsec']
    by_cases hf : w.fileExists w.withingsConfigFile <;> simp [hf] <;> split <;> simp
  · intro cf
    unfold Strava.get_access_token
    simp only [hsid', hssec']
    by_cases hf : w.fileExists cf <;> simp [hf] <;> split <;> simp

/-- C4 witness: in the successful worlds, no file means authorization
and a present file means refresh, for both modules. -/
theorem C4_witness :
    (Withings.get_access_token wOK).2 = [Event.withingsGetAccessCode] ∧
    (Strava.get_access_token wOKFiles "config.json").2 = [Event.stravaGetRefreshToken] := by
  constructor
  · have h := (C4_refresh_iff_config_file wOK (by decide) (by decide) (by decide)
      (by decide)).1
    simpa using h
  · have h := (C4_refresh_iff_config_file wOKFiles (by decide) (by decide) (by decide)
      (by decide)).2 "config.json"
    simpa using h

/-- C7: a missing `STRAVA_CLIENT_ID` or `STRAVA_CLIENT_SECRET` makes
`auth_strava` and the Strava `get_access_token` return a
`StravaError::Config` without attempting authentication (empty trace);
a missing `WITHINGS_CLIENT_ID` or `WITHINGS_CLIENT_SECRET` likewise
makes the Withings token acquisition return a Config error with no
authentication attempt. -/
theorem C7_missing_env_config_error (w : World) :
    ((w.env "STRAVA_CLIENT_ID" = none ∨ w.env "STRAVA_CLIENT_SECRET" = none) →
      ((∃ m h, (Strava.auth_strava w).1 = .error (.Config m h)) ∧
        (Strava.auth_strava w).2 = [] ∧
        ∀ cf, (∃ m h, (Strava.get_access_token w cf).1 =
            .error (Report.ofError (.Config m h))) ∧
          (Strava.get_access_token w cf).2 = [])) ∧
    ((w.env "WITHINGS_CLIENT_ID" = none ∨ w.env "WITHINGS_CLIENT_SECRET" = none) →
      ((∃ r, (Withings.get_access_token w).1 = .error r ∧ ∃ m h, r.error = .Config m h) ∧
        (Withings.get_access_token w).2 = [])) := by
  constructor
  · intro henv
    rcases hid : w.env "STRAVA_CLIENT_ID" with _ | v
    · have ha : Strava.auth_strava w = (.error (.Config "Missing client ID"
          "Set the STRAVA_CLIENT_ID environment variable"), []) := by
        simp [Strava.auth_strava, hid]
      have hg : ∀ cf, Strava.get_access_token w cf =
          (.error (Report.ofError (.Config "Missing client ID"
            "Set the STRAVA_CLIENT_ID environment variable")), []) := by
        intro cf
        simp [Strava.get_access_token, hid]
      exact ⟨⟨_, _, by rw [ha]⟩, by rw [ha],
        fun cf => ⟨⟨_, _, by rw [hg cf]⟩, by rw [hg cf]⟩⟩
    · have hsec : w.env "STRAVA_CLIENT_SECRET" = none := by
        rcases henv with h | h
        · rw [h] at hid; cases hid
        · exact h
      have ha : Strava.auth_strava w = (.error (.Config "Missing client secret"
          "Set the STRAVA_CLIENT_SECRET environment variable"), []) := by
        simp [Strava.auth_strava, hid, hsec]
      have hg : ∀ cf, Strava.get_access_token w cf =
          (.error (Report.ofError (.Config "Missing client secret"
            "Set the STRAVA_CLIENT_SECRET environment variable")), []) := by
        intro cf
        simp [Strava.get_access_token, hid, hsec]
      exact ⟨⟨_, _, by rw [ha]⟩, by rw [ha],
        fun cf => ⟨⟨_, _, by rw [hg cf]⟩, by rw [hg cf]⟩⟩
  · intro henv
    rcases hsec : w.env "WITHINGS_CLIENT_SECRET" with _ | v
    · have ha : Withings.get_access_token w =
          (.error ⟨["Missing client secret"], .Config
            "Missing environment variable WITHINGS_CLIENT_SECRET"
            "Set the WITHINGS_CLIENT_SECRET environment variable"⟩, []) := by
        simp [Withings.get_access_token, Withings.get_env_var, hsec, Report.wrapErr,
          Report.ofError]
      exact ⟨⟨_, by rw [ha], _, _, rfl⟩, by rw [ha]⟩
    · have hid : w.env "WITHINGS_CLIENT_ID" = none := by
        rcases henv with h | h
        · exact h
        · rw [h] at hsec; cases hsec
      have ha : Withings.get_access_token w =
          (.error ⟨["Missing client ID"], .Config
            "Missing environment variable WITHINGS_CLIENT_ID"
            "Set the WITHINGS_CLIENT_ID environment variable"⟩, []) := by
        simp [Withings.get_access_token, Withings.get_env_var, hsec, hid, Report.wrapErr,
          Report.ofError]
      exact ⟨⟨_, by rw [ha], _, _, rfl⟩, by rw [ha]⟩

/-- C7 witness: with an empty environment every token function reports a
configuration error and attempts nothing. -/
theorem C7_witness :
    (Strava.auth_strava wNoEnv).2 = [] ∧ (Withings.get_access_token wNoEnv).2 = [] := by
  refine ⟨((C7_missing_env_config_error wNoEnv).1 ?_).2.1,
    ((C7_missing_env_config_error wNoEnv).2 ?_).2⟩ <;> exact Or.inl rfl

/-- `get_and_format_weight` either returns `Some` of a string, exits
with status 1, or propagates the timestamp-computation panic; it never
returns `ok none`. -/
theorem gafw_shape (w : World) (d : Int) :
    (∃ s, (get_and_format_weight w d).1 = .ok (some s)) ∨
    (get_and_format_weight w d).1 = .exited 1 ∨
    ∃ m, Withings.get_day_before_timestamp w.now d = .panicked m ∧
      (get_and_format_weight w d).1 = .panicked m := by
  unfold get_and_format_weight
  rcases hd : Withings.get_day_before_timestamp w.now d with ts | c | m
  · rcases h : Withings.get_weight_by_date w ts with ⟨r, tr⟩
    rcases r with e | v <;> simp [h]
  · rcases gdbt_cases w.now d with h | ⟨m, h⟩ <;> rw [h] at hd <;> cases hd
  · exact Or.inr (Or.inr ⟨m, rfl, rfl⟩)

/-- C2: when authentication succeeds and the measurement request returns
`resp`, `get_weight_by_date` yields the value of the first measure of the
first measurement group whenever both lists are non-empty, and yields
`WeightError::NoMeasurements` exactly when the group list is empty or
the first group's measure list is empty; access is by `first()`
(`List.head?`), which never indexes past the end of either list. -/
theorem C2_first_measure_or_no_measurements (w : World) (lu : String) (resp : Measurements)
    (htok : exOk (Withings.get_access_token w).1 = true)
    (hid : (w.env "WITHINGS_CLIENT_ID").isSome = true)
    (hresp : w.getMeasurements = .ok resp) :
    (∀ g gs m ms, resp.body.measuregrps = g :: gs → g.measures = m :: ms →
      (Withings.get_weight_by_date w lu).1 = .ok (m.value : ℚ)) ∧
    ((Withings.get_weight_by_date w lu).1 = .error .NoMeasurements ↔
      (resp.body.measuregrps = [] ∨
        ∃ g, resp.body.measuregrps.head? = some g ∧ g.measures = [])) := by
  obtain ⟨idv, hidv⟩ := Option.isSome_iff_exists.mp hid
  unfold Withings.get_weight_by_date
  rcases h : Withings.get_access_token w with ⟨r, tr⟩
  rcases r with e | tok
  · rw [h] at htok
    simp [exOk] at htok
  · simp only [h]
    simp only [Withings.get_env_var, hidv, hresp]
    rcases hg : resp.body.measuregrps with _ | ⟨g, gs⟩ <;> simp [hg]
    rcases hm : g.measures with _ | ⟨m, ms⟩ <;> simp [hm]
    · intro g' gs' m' ms' hgg hgs hm'
      rw [← hgg, hm] at hm'
      cases hm'
    · intro g' gs' m' ms' hgg hgs hm'
      rw [← hgg, hm] at hm'
      cases hm'
      rfl

/-- C2 witness: in `wOK` the single 72500 g measure is returned, and in
the empty-response worlds the result is `NoMeasurements`. -/
theorem C2_witness :
    (Withings.get_weight_by_date wOK "t").1 = .ok ((72500 : Int) : ℚ) ∧
    (Withings.get_weight_by_date wEmptyMeas "t").1 = .error .NoMeasurements ∧
    (Withings.get_weight_by_date wEmptyGrp "t").1 = .error .NoMeasurements := by
  refine ⟨?_, ?_, ?_⟩
  · exact (C2_first_measure_or_no_measurements wOK "t" measOne (by decide) (by decide)
      rfl).1 ⟨[⟨72500⟩]⟩ [] ⟨72500⟩ [] rfl rfl
  · exact ((C2_first_measure_or_no_measurements wEmptyMeas "t" ⟨⟨[]⟩⟩ (by decide) (by decide)
      rfl).2).mpr (Or.inl rfl)
  · exact ((C2_first_measure_or_no_measurements wEmptyGrp "t" ⟨⟨[⟨[]⟩]⟩⟩ (by decide) (by decide)
      rfl).2).mpr (Or.inr ⟨⟨[]⟩, rfl, rfl⟩)

/-- C3: when the timestamp computation returns `ts` and
`get_weight_by_date` succeeds on it with the gram value `q`,
`get_and_format_weight` returns `Some` of the rendering of `q / 1000`,
the kilogram value. -/
theorem C3_grams_to_kilograms (w : World) (d : Int) (ts : String) (q : ℚ)
    (hts : Withings.get_day_before_timestamp w.now d = .ok ts)
    (h : (Withings.get_weight_by_date w ts).1 = .ok q) :
    (get_and_format_weight w d).1 = .ok (some (toString (q / 1000))) := by
  unfold get_and_format_weight
  rw [hts]
  rcases hg : Withings.get_weight_by_date w ts with ⟨r, tr⟩
  rw [hg] at h
  rcases r with e | v <;> simp_all

/-- C3 witness: in `wOK` the 72500 g measure is formatted as the
rendering of 72500/1000 kg. -/
theorem C3_witness :
    (get_and_format_weight wOK 1).1 = .ok (some (toString (((72500 : Int) : ℚ) / 1000))) :=
  C3_grams_to_kilograms wOK 1
    (toString ((1700000000 : Int) - Withings.durationDaysSeconds 1))
    ((72500 : Int) : ℚ) rfl rfl

/-- C9 (counterexample): at day offset 100000000 `get_and_format_weight`
panics inside `get_day_before_timestamp` — neither a `Some` return nor
an `exit(1)` — so the claimed two-way dichotomy is false as stated. -/
theorem C9_counterexample : isPanic (get_and_format_weight wOK 100000000).1 = true := by
  decide

/-- C9 (amended): for every day offset, `get_and_format_weight` returns
`Some` of a formatted string, exits the process with status 1, or
propagates the panic of `get_day_before_timestamp` on an out-of-range
offset — it never returns `None` — and `sync_strava` from main.rs never
panics on a `Some` argument, so its `unwrap` of a value produced by a
returning `get_and_format_weight` cannot panic. -/
theorem C9_gafw_never_none (w : World) (d : Int) :
    ((∃ s, (get_and_format_weight w d).1 = .ok (some s)) ∨
      (get_and_format_weight w d).1 = .exited 1 ∨
      ∃ m, Withings.get_day_before_timestamp w.now d = .panicked m ∧
        (get_and_format_weight w d).1 = .panicked m) ∧
    (∀ s, isPanic (Main.sync_strava w (some s)).1 = false) := by
  constructor
  · exact gafw_shape w d
  · intro s
    simp [Main.sync_strava, isPanic]

/-- Call-count bounds of a whole CLI run. -/
theorem counts_cliRun (c : Cli) (w : World) : CountsLE (cliRun c w).2 4 1 1 := by
  unfold cliRun
  rcases hc : c.command with _ | cmd
  · simp only [hc]
    have h : CountsLE (seqRun (cliLogInit c w) (fun _ =>
        ((.ok (), [Event.stdout "No command specified"]) : Outcome Unit × List Event))).2
        (0 + 0) (0 + 0) (0 + 0) :=
      countsLE_seqRun (counts_cliLogInit c w) (counts_one_stdout _)
    exact countsLE_mono h (by omega) (by omega) (by omega)
  · rcases cmd with ⟨lw, sync⟩ | ⟨r, a, s⟩ <;> simp only [hc]
    · have h : CountsLE (seqRun (cliLogInit c w) (fun _ => cliWithings w lw sync)).2
          (0 + 2) (0 + 1) (0 + 1) :=
        countsLE_seqRun (counts_cliLogInit c w) (counts_cliWithings w lw sync)
      exact countsLE_mono h (by omega) (by omega) (by omega)
    · have h : CountsLE (seqRun (cliLogInit c w) (fun _ => cliStrava w r a s)).2
          (0 + 4) (0 + 0) (0 + 1) :=
        countsLE_seqRun (counts_cliLogInit c w) (counts_cliStrava w r a s)
      exact countsLE_mono h (by omega) (by omega) (by omega)

theorem cz_withings_gat (w : World) :
    (Withings.get_access_token w).2.countP Event.isStravaSide = 0 := by
  rcases withings_gat_trace w with h | h | h <;> rw [h] <;> simp [Event.isStravaSide]

theorem cz_gwbd (w : World) (s : String) :
    (Withings.get_weight_by_date w s).2.countP Event.isStravaSide = 0 := by
  obtain ⟨t, ht, hc⟩ := gwbd_decomp w s
  rw [ht, List.countP_append, cz_withings_gat]
  rcases hc with rfl | rfl <;> simp [Event.isStravaSide]

theorem cz_gafw (w : World) (d : Int) :
    (get_and_format_weight w d).2.countP Event.isStravaSide = 0 := by
  rcases gafw_decomp w d with ⟨m, hm⟩ | ⟨ts, t, hts, ht, hc⟩
  · rw [hm]
    simp [Event.isStravaSide]
  · rw [ht, List.countP_append, cz_gwbd]
    rcases hc with rfl | ⟨m, rfl⟩ <;> simp [Event.isStravaSide]

theorem cz_logInit (c : Cli) (w : World) :
    (cliLogInit c w).2.countP Event.isStravaSide = 0 := by
  unfold cliLogInit
  cases c.log <;> simp
  rcases w.loggerInit with e | u <;> simp [Event.isStravaSide]

theorem cz_cliWithings_false (w : World) (lw : Int) :
    (cliWithings w lw false).2.countP Event.isStravaSide = 0 := by
  unfold cliWithings
  rcases h : get_and_format_weight w lw with ⟨o, tr0⟩
  have h0 : tr0.countP Event.isStravaSide = 0 := by
    have := cz_gafw w lw
    rwa [h] at this
  rcases o with v | c | m <;> simp [h, List.countP_append, h0, Event.isStravaSide]

/-- A successful `seqRun` means both parts succeeded and the traces
concatenate. -/
theorem seqRun_ok {α : Type} {x : Outcome Unit × List Event}
    {f : Unit → Outcome α × List Event} {a : α} (h : (seqRun x f).1 = .ok a) :
    x.1 = .ok () ∧ (f ()).1 = .ok a ∧ (seqRun x f).2 = x.2 ++ (f ()).2 := by
  rcases x with ⟨o, tr⟩
  rcases o with u | c | m <;> simp_all [seqRun]

/-- A successful `update_athlete_weight` performed the weight-update API
call. -/
theorem update_ok_weightUpdate (w : World) (s : String) {r : String}
    (h : (Strava.update_athlete_weight w s).1 = .ok r) :
    Event.weightUpdate s ∈ (Strava.update_athlete_weight w s).2 := by
  unfold Strava.update_athlete_weight at *
  rcases ho : Strava.obtain_access_token w with ⟨ro, tro⟩
  rcases ro with e | t <;> simp_all
  rcases w.updateAthleteWeight with e | st <;> simp_all

/-- A successful `sync_weight_to_strava` performed a weight-update API
call with the synced weight. -/
theorem sync_ok_weightUpdate (w : World) (o : Option String)
    (h : (Strava.sync_weight_to_strava w o).1 = .ok ()) :
    ∃ s, Event.weightUpdate s ∈ (Strava.sync_weight_to_strava w o).2 := by
  rcases o with _ | s
  · simp [Strava.sync_weight_to_strava] at h
  · obtain ⟨t, ht, hc⟩ := sync_some_decomp w s
    rw [ht]
    unfold Strava.sync_weight_to_strava at h
    simp only [] at h
    rcases hu : Strava.update_athlete_weight w s with ⟨ru, tru⟩
    rw [hu] at h
    rcases ru with e | v
    · simp at h
    · have hm := update_ok_weightUpdate w s (by rw [hu])
      rw [hu] at hm
      exact ⟨s, by simp [hm]⟩

theorem cliWithings_true_ok_weightUpdate (w : World) (lw : Int)
    (h : (cliWithings w lw true).1 = .ok ()) :
    ∃ s, Event.weightUpdate s ∈ (cliWithings w lw true).2 := by
  unfold cliWithings at h ⊢
  rcases hg : get_and_format_weight w lw with ⟨o, tr0⟩
  rw [hg] at h
  rcases o with v | c | m
  · rcases hs : Strava.sync_weight_to_strava w v with ⟨rs, trs⟩
    rcases rs with e | u
    · exfalso
      simp [hs] at h
    · have hw := sync_ok_weightUpdate w v (by rw [hs])
      rw [hs] at hw
      obtain ⟨s, hmem⟩ := hw
      refine ⟨s, ?_⟩
      simp [hs, hmem]
  · simp at h
  · simp at h

theorem cliWithings_false_ok_prints (w : World) (lw : Int)
    (h : (cliWithings w lw false).1 = .ok ()) :
    ∃ s, Event.stdout ("weight: " ++ debugOptionString (some s)) ∈
      (cliWithings w lw false).2 := by
  unfold cliWithings at h ⊢
  rcases hg : get_and_format_weight w lw with ⟨o, tr0⟩
  rw [hg] at h
  have hshape := gafw_shape w lw
  rw [hg] at hshape
  rcases o with v | c | m
  · rcases hshape with ⟨s, hv⟩ | hv | ⟨m, hm, hv⟩
    · injection hv with hv2
      subst hv2
      refine ⟨s, ?_⟩
      simp
    · cases hv
    · cases hv
  · simp at h
  · simp at h

/-- C8: under the withings subcommand the weight is forwarded to Strava
if and only if the strava-sync flag is set: with the flag clear no
Strava-side activity occurs at all (in the current cli.rs driver and in
the older main.rs driver) and the weight is printed, while with the flag
set every successful run performs a weight-update call. -/
theorem C8_sync_iff_flag (w : World) (lw : Int) (log : Bool) :
    ((cliRun ⟨log, some (.withings lw false)⟩ w).2.countP Event.isStravaSide = 0) ∧
    ((cliRun ⟨log, some (.withings lw false)⟩ w).1 = .ok () →
      ∃ s, Event.stdout ("weight: " ++ debugOptionString (some s)) ∈
        (cliRun ⟨log, some (.withings lw false)⟩ w).2) ∧
    ((cliRun ⟨log, some (.withings lw true)⟩ w).1 = .ok () →
      ∃ s, Event.weightUpdate s ∈ (cliRun ⟨log, some (.withings lw true)⟩ w).2) ∧
    ((Main.process_cli w (.withings (some lw) false)).2.countP Event.isStravaSide = 0) := by
  refine ⟨?_, ?_, ?_, ?_⟩
  · unfold cliRun
    obtain ⟨t, ht, hc⟩ := seqRun_decomp (cliLogInit ⟨log, some (.withings lw false)⟩ w)
      (fun _ => cliWithings w lw false)
    rw [ht, List.countP_append, cz_logInit]
    rcases hc with rfl | h
    · simp
    · rw [h]
      simpa using cz_cliWithings_false w lw
  · intro h
    unfold cliRun at *
    obtain ⟨h1, h2, h3⟩ := seqRun_ok h
    rw [h3]
    obtain ⟨s, hs⟩ := cliWithings_false_ok_prints w lw h2
    exact ⟨s, List.mem_append_right _ hs⟩
  · intro h
    unfold cliRun at *
    obtain ⟨h1, h2, h3⟩ := seqRun_ok h
    rw [h3]
    obtain ⟨s, hs⟩ := cliWithings_true_ok_weightUpdate w lw h2
    exact ⟨s, List.mem_append_right _ hs⟩
  · unfold Main.process_cli
    rcases h : get_and_format_weight w lw with ⟨o, tr0⟩
    have h0 : tr0.countP Event.isStravaSide = 0 := by
      have := cz_gafw w lw
      rwa [h] at this
    rcases o with v | c | m <;>
      simp [h, List.countP_append, h0, Event.isStravaSide]

/-- C8 witness: in the successful world the flag-set run updates the
weight in Strava, and the flag-clear run touches nothing Strava-side. -/
theorem C8_witness :
    (∃ s, Event.weightUpdate s ∈ (cliRun ⟨false, some (.withings 1 true)⟩ wOK).2) ∧
    (cliRun ⟨false, some (.withings 1 false)⟩ wOK).2.countP Event.isStravaSide = 0 :=
  ⟨(C8_sync_iff_flag wOK 1 false).2.2.1 rfl, (C8_sync_iff_flag wOK 1 false).1⟩

theorem cliWithings_ok_prints (w : World) (lw : Int) (sync : Bool)
    (h : (cliWithings w lw sync).1 = .ok ()) :
    ∃ s, Event.stdout ("weight: " ++ debugOptionString (some s)) ∈
      (cliWithings w lw sync).2 := by
  unfold cliWithings at h ⊢
  rcases hg : get_and_format_weight w lw with ⟨o, tr0⟩
  rw [hg] at h
  have hshape := gafw_shape w lw
  rw [hg] at hshape
  rcases o with v | c | m
  · rcases hshape with ⟨s, hv⟩ | hv | ⟨m, hm, hv⟩
    · injection hv with hv2
      subst hv2
      refine ⟨s, ?_⟩
      cases sync
      · simp
      · rcases h2 : Strava.sync_weight_to_strava w (some s) with ⟨r2, tr2⟩
        rcases r2 with e | u <;> simp [h2]
    · cases hv
    · cases hv
  · simp at h
  · simp at h

theorem statsStep_ok_prints (w : World) (o : StatsOption)
    (h : (cliStravaStats w (some o)).1 = .ok ()) :
    ∃ st, Event.stdout (renderStatsOutput o st) ∈ (cliStravaStats w (some o)).2 := by
  unfold cliStravaStats at h ⊢
  rcases hs : Strava.get_athlete_stats w with ⟨r, tr⟩
  rw [hs] at h
  rcases r with e | st
  · simp at h
  · exact ⟨st, by simp [hs]⟩

/-- C1 (amended): every CLI run performs at most one measurement fetch
and at most one weight-update-or-stats-read API call, but up to four
OAuth token acquisitions/refreshes (each Strava wrapper re-acquires its
own token, and the withings sync path acquires one token per API); the
run then terminates, and the formatted output is printed on every
successful withings run and every successful stats read — but not on a
strava run with no options selected, which prints nothing. -/
theorem C1_amended_call_bounds (c : Cli) (w : World) :
    CountsLE (cliRun c w).2 4 1 1 ∧
    (∀ lw sync, c.command = some (.withings lw sync) → (cliRun c w).1 = .ok () →
      ∃ s, Event.stdout ("weight: " ++ debugOptionString (some s)) ∈ (cliRun c w).2) ∧
    (∀ r a o, c.command = some (.strava r a (some o)) → (cliRun c w).1 = .ok () →
      ∃ st, Event.stdout (renderStatsOutput o st) ∈ (cliRun c w).2) := by
  refine ⟨counts_cliRun c w, ?_, ?_⟩
  · intro lw sync hc hok
    unfold cliRun at hok ⊢
    rw [hc] at hok ⊢
    obtain ⟨h1, h2, h3⟩ := seqRun_ok hok
    rw [h3]
    obtain ⟨s, hs⟩ := cliWithings_ok_prints w lw sync h2
    exact ⟨s, List.mem_append_right _ hs⟩
  · intro r a o hc hok
    unfold cliRun at hok ⊢
    rw [hc] at hok ⊢
    obtain ⟨h1, h2, h3⟩ := seqRun_ok hok
    rw [h3]
    unfold cliStrava at h2 ⊢
    obtain ⟨h4, h5, h6⟩ := seqRun_ok h2
    rw [h6]
    obtain ⟨h7, h8, h9⟩ := seqRun_ok h5
    rw [h9]
    obtain ⟨st, hst⟩ := statsStep_ok_prints w o h8
    exact ⟨st, List.mem_append_right _ (List.mem_append_right _
      (List.mem_append_right _ hst))⟩

/-- C1 witness: in the fully successful world, the flag-set withings run
prints the weight line and the stats run prints the rendered stats. -/
theorem C1_witness :
    (∃ s, Event.stdout ("weight: " ++ debugOptionString (some s)) ∈
      (cliRun cexCli wOK).2) ∧
    (∃ st, Event.stdout (renderStatsOutput .all st) ∈
      (cliRun ⟨false, some (.strava false false (some .all))⟩ wOK).2) :=
  ⟨(C1_amended_call_bounds cexCli wOK).2.1 1 true rfl rfl,
   (C1_amended_call_bounds ⟨false, some (.strava false false (some .all))⟩ wOK).2.2
     false false .all rfl rfl⟩

